import Mathlib

/-!
Verification of the orchestration core of the task-delegation agent service
(`app/backend/app.py`): the Process Registry (the global `processes` dict),
the Status Reconciler (the `run` coroutine), the inbox tool
(`check_process_inbox`), the long-running-process starter
(`start_long_running_process`), and the run-polling loop of the `chat`
endpoint.

Python JSON values are modelled by the `Json` inductive; Python dicts keyed
by parsed JSON values are modelled as insertion-ordered association lists
with assignment-in-place semantics; Python exceptions are modelled by
`Except` with a `PyError` tag naming the exception class.
-/

mutual
/-- A JSON value, as produced by Python's `json.loads`.  Numbers are modelled
as integers (no behaviour in scope involves fractional numbers). -/
inductive Json where
  | null : Json
  | bool (b : Bool) : Json
  | num (n : Int) : Json
  | str (s : String) : Json
  | arr (xs : JsonArr) : Json
  | obj (fs : JsonObj) : Json
deriving DecidableEq, Repr

/-- The element list of a JSON array. -/
inductive JsonArr where
  | nil : JsonArr
  | cons (hd : Json) (tl : JsonArr) : JsonArr
deriving DecidableEq, Repr

/-- The field list of a JSON object (a parsed Python dict): ordered
key/value pairs, keys assumed distinct as `json.loads` guarantees. -/
inductive JsonObj where
  | nil : JsonObj
  | cons (k : String) (v : Json) (tl : JsonObj) : JsonObj
deriving DecidableEq, Repr
end

/-- Field lookup in a parsed dict, first match. -/
def JsonObj.lookup : JsonObj → String → Option Json
  | .nil, _ => none
  | .cons k v tl, key => if k = key then some v else tl.lookup key

/-- Hex digit character, lower case. -/
def hexDigit (n : Nat) : Char :=
  if n < 10 then Char.ofNat (n + 48) else Char.ofNat (n - 10 + 97)

/-- Four-digit hexadecimal rendering, as Python's `json.dumps` uses in
`\uXXXX` escapes. -/
def hex4 (n : Nat) : String :=
  String.mk [hexDigit (n / 4096 % 16), hexDigit (n / 256 % 16),
             hexDigit (n / 16 % 16), hexDigit (n % 16)]

/-- Escape one character of a JSON string the way Python's `json.dumps`
does with its default `ensure_ascii=True` (characters beyond the basic
multilingual plane would need surrogate pairs; none occur in scope). -/
def escapeChar (c : Char) : String :=
  if c = '"' then "\\\""
  else if c = '\\' then "\\\\"
  else if c = '\n' then "\\n"
  else if c = '\t' then "\\t"
  else if c = '\r' then "\\r"
  else if c.toNat < 32 ∨ c.toNat > 126 then "\\u" ++ hex4 c.toNat
  else String.singleton c

/-- Escape a whole string for JSON output. -/
def escapeString (s : String) : String :=
  String.join (s.data.map escapeChar)

mutual
/-- Python's `json.dumps` with its default separators: `", "` between
items and `": "` between a key and a value. -/
def dumps : Json → String
  | .null => "null"
  | .bool true => "true"
  | .bool false => "false"
  | .num n => toString n
  | .str s => "\"" ++ escapeString s ++ "\""
  | .arr xs => "[" ++ dumpsArr xs ++ "]"
  | .obj fs => "\x7b" ++ dumpsObj fs ++ "\x7d"

/-- Array elements joined by `", "`. -/
def dumpsArr : JsonArr → String
  | .nil => ""
  | .cons x .nil => dumps x
  | .cons x (.cons y tl) => dumps x ++ ", " ++ dumpsArr (.cons y tl)

/-- Object fields joined by `", "`, each rendered `"key": value`. -/
def dumpsObj : JsonObj → String
  | .nil => ""
  | .cons k v .nil => "\"" ++ escapeString k ++ "\": " ++ dumps v
  | .cons k v (.cons k2 v2 tl) =>
      "\"" ++ escapeString k ++ "\": " ++ dumps v ++ ", " ++
        dumpsObj (.cons k2 v2 tl)
end

/-- The exception classes the modelled code can raise. -/
inductive PyError where
  /-- `json.loads` got an unparsable payload. -/
  | jsonDecodeError : PyError
  /-- `d[k]` on a dict missing `k`. -/
  | keyError (k : String) : PyError
  /-- attribute access on a value lacking it, e.g. `.get` on a non-dict or
  `.text` on `None`. -/
  | attributeError : PyError
  /-- subscripting a non-dict value. -/
  | typeError : PyError
  /-- a tool name not registered with the function-tool set. -/
  | valueError : PyError
deriving DecidableEq, Repr

/-- Python `d[k]` on a parsed JSON value: field lookup on a dict, raising
`KeyError` when the key is absent and `TypeError` when the value is not a
dict. -/
def Json.index : Json → String → Except PyError Json
  | .obj fs, k =>
      match fs.lookup k with
      | some v => .ok v
      | none => .error (.keyError k)
  | _, _ => .error .typeError

/-- Python `d.get(k, default)` on a parsed JSON value: field lookup with a
default on a dict, raising `AttributeError` when the value is not a dict
(lists and scalars have no `.get` method). -/
def Json.dictGet : Json → String → Json → Except PyError Json
  | .obj fs, k, default =>
      match fs.lookup k with
      | some v => .ok v
      | none => .ok default
  | _, _, _ => .error .attributeError

/-- One Process Registry entry: the dict
`{"status": ..., "message": ...}` stored as `processes[process_id]`. -/
structure Entry where
  status : Json
  message : Json
deriving DecidableEq, Repr

/-- The dict value of an entry, as `json.dumps` sees it. -/
def Entry.toJson (e : Entry) : Json :=
  .obj (.cons "status" e.status (.cons "message" e.message .nil))

/-- The Process Registry: the global `processes` dict, an insertion-ordered
map from process identifier (the parsed `process_id` value) to entry. -/
abbrev Registry := List (Json × Entry)

/-- Dict lookup `processes.get(pid)`. -/
def Registry.get? : Registry → Json → Option Entry
  | [], _ => none
  | (k, v) :: tl, key => if k = key then some v else Registry.get? tl key

/-- Dict assignment `processes[pid] = entry`: replaces the value in place
if the key exists, otherwise appends (Python dicts keep insertion order). -/
def Registry.insert : Registry → Json → Entry → Registry
  | [], key, e => [(key, e)]
  | (k, v) :: tl, key, e =>
      if k = key then (key, e) :: tl else (k, v) :: Registry.insert tl key e

/-- The inbox tool (`check_process_inbox`):
`return json.dumps(processes.get(process_id))`.  `json.dumps` of a missing
entry serialises Python `None` as `null`. -/
def check_process_inbox (processes : Registry) (process_id : Json) : String :=
  dumps (match processes.get? process_id with
         | none => .null
         | some e => e.toJson)

/-- A background task handed to `background_tasks.add_task`
(`simulate_long_process(process_id, thread_id)`), recorded as scheduled
data: the chat request path never runs or awaits it. -/
structure BgTask where
  process_id : String
  thread_id : Option String
deriving DecidableEq, Repr

/-- The mutable backend state the modelled paths touch: the `processes`
dict and the list of scheduled-but-not-run background tasks. -/
structure AppState where
  processes : Registry
  backgroundTasks : List BgTask
deriving DecidableEq, Repr

/-- `start_long_running_process(feature_spec, thread_id, background_tasks)`:
generates a fresh identifier (`uuid.uuid4()`, modelled by the `freshId`
argument), schedules `simulate_long_process` as a background task when a
task manager was passed, registers the process with status `"running"` and
empty message dict, and returns the identifier.  The delegated work is only
scheduled, never awaited, on this path. -/
def start_long_running_process (st : AppState) (freshId : String)
    (feature_spec : Json) (thread_id : Option String)
    (background_tasks : Bool) : AppState × String :=
  let _ := feature_spec
  let tasks := if background_tasks
               then st.backgroundTasks ++ [⟨freshId, thread_id⟩]
               else st.backgroundTasks
  let procs := st.processes.insert (.str freshId) ⟨.str "running", .obj .nil⟩
  (⟨procs, tasks⟩, freshId)

/-- A status-update event after field extraction: the values the reconciler
body reads out of a parsed queue message. -/
structure UpdateEvent where
  process_id : Json
  status : Json
  message : Json
deriving DecidableEq, Repr

/-- Field extraction in the reconciler body, in Python evaluation order for
`processes[update["process_id"]] = {"status": update["status"],
"message": update.get("message", {})}`: the assigned dict's values first
(`update["status"]`, then `update.get("message", {})`), then the subscript
key `update["process_id"]`; each step raises on a malformed value. -/
def parseUpdate (j : Json) : Except PyError UpdateEvent := do
  let status ← j.index "status"
  let message ← j.dictGet "message" (.obj .nil)
  let pid ← j.index "process_id"
  .ok ⟨pid, status, message⟩

/-- The registry mutation of the reconciler body:
`processes[update["process_id"]] = {"status": ..., "message": ...}` —
an unconditional dict assignment. -/
def applyUpdate (reg : Registry) (u : UpdateEvent) : Registry :=
  reg.insert u.process_id ⟨u.status, u.message⟩

/-- A received queue message body, after `str(msg)`: `some j` when the text
parses to the JSON value `j`, `none` when `json.loads` would raise. -/
abbrev RawMsg := Option Json

/-- The reconciler's inner loop over one received batch
(`for msg in received_msgs:` in `run`): parse, assign, then complete the
message.  There is no exception handler, so the first malformed message
raises out of the loop; messages after it are not processed and nothing is
completed or dead-lettered from that point on. -/
def processBatch : Registry → List RawMsg → Except PyError Registry
  | reg, [] => .ok reg
  | reg, msg :: rest =>
      match msg with
      | none => .error .jsonDecodeError
      | some j =>
          match parseUpdate j with
          | .error e => .error e
          | .ok u => processBatch (applyUpdate reg u) rest

/-- The standing reconciler loop (`while True` in `run`) over a sequence of
received batches; an uncaught exception terminates the coroutine. -/
def runReconciler : Registry → List (List RawMsg) → Except PyError Registry
  | reg, [] => .ok reg
  | reg, batch :: more =>
      match processBatch reg batch with
      | .error e => .error e
      | .ok reg2 => runReconciler reg2 more

/-- One pending tool call reported by the agent runtime.  `arguments` is
the parse of the call's JSON argument string (`none` when `json.loads`
would raise on it); `isFunctionCall` models
`isinstance(tool_call, RequiredFunctionToolCall)`. -/
structure ToolCall where
  id : String
  name : String
  arguments : Option Json
  isFunctionCall : Bool
deriving DecidableEq, Repr

/-- One `ToolOutput(tool_call_id=..., output=...)` collected for batch
submission. -/
structure ToolOutput where
  tool_call_id : String
  output : String
deriving DecidableEq, Repr

/-- Modelled from the spec: `agent_functions.execute(tool_call)` comes from
the external agent-runtime SDK (`FunctionTool`), not from the repository.
Per the spec it parses the call's JSON arguments and invokes the named
registered synchronous handler — here `check_process_inbox`, reading the
registry — and any unrecognised tool name is an error surfaced as a
per-call failure.  (`start_long_running_process` is also registered, but
the chat loop intercepts that name before ever reaching `execute`, so it
is unreachable here and modelled as the same per-call error.) -/
def agentFunctionsExecute (st : AppState) (tc : ToolCall) :
    Except PyError String := do
  let args ← match tc.arguments with
             | none => Except.error PyError.jsonDecodeError
             | some j => Except.ok j
  if tc.name = "check_process_inbox" then
    match args with
    | .obj fs =>
        match fs.lookup "process_id" with
        | some pid => .ok (check_process_inbox st.processes pid)
        | none => .error .typeError
    | _ => .error .typeError
  else
    .error .valueError

/-- The distinguished branch of the chat loop for
`tool_call.function.name == 'start_long_running_process'`: read
`reqs = json.loads(tool_call.function.arguments).get('feature_spec')`
(either step can raise, and no handler catches it), start the process, and
build the `ToolOutput` whose text announces the identifier and the status
`running`. -/
def dispatchStartLongRunning (st : AppState) (freshId : String)
    (thread_id : String) (tc : ToolCall) :
    Except PyError (AppState × ToolOutput) := do
  let args ← match tc.arguments with
             | none => Except.error PyError.jsonDecodeError
             | some j => Except.ok j
  let reqs ← args.dictGet "feature_spec" .null
  let (st2, pid) := start_long_running_process st freshId reqs
                      (some thread_id) true
  .ok (st2, ⟨tc.id,
      "Started long running process " ++ pid ++ " (Status: running)"⟩)

/-- One polling cycle's tool-call processing (the `for tool_call in
tool_calls:` loop of `chat`): the distinguished
`start_long_running_process` name is handled inline with no exception
handler, every other function call runs under `try/except` that logs and
drops the failed call's output, and calls that are not
`RequiredFunctionToolCall`s are skipped.  `supply` feeds the fresh
identifiers that `uuid.uuid4()` would generate; the unconsumed remainder
is returned with the collected outputs. -/
def processToolCalls (thread_id : String) :
    AppState → List String → List ToolCall →
    Except PyError (AppState × List String × List ToolOutput)
  | st, supply, [] => .ok (st, supply, [])
  | st, supply, tc :: rest =>
      if tc.isFunctionCall then
        if tc.name = "start_long_running_process" then
          match dispatchStartLongRunning st (supply.headD "") thread_id tc with
          | .error e => .error e
          | .ok (st2, out) =>
              match processToolCalls thread_id st2 supply.tail rest with
              | .error e => .error e
              | .ok (st3, supply3, outs) => .ok (st3, supply3, out :: outs)
        else
          match agentFunctionsExecute st tc with
          | .ok output =>
              match processToolCalls thread_id st supply rest with
              | .error e => .error e
              | .ok (st3, supply3, outs) =>
                  .ok (st3, supply3, ⟨tc.id, output⟩ :: outs)
          | .error _ => processToolCalls thread_id st supply rest
      else
        processToolCalls thread_id st supply rest

/-- One observation of the run by `get_run`: its status string, and — when
`required_action` is a `SubmitToolOutputsAction` — the pending tool-call
list (`none` models any other `required_action`). -/
structure RunView where
  status : String
  toolCalls : Option (List ToolCall)
deriving Repr

/-- How the polling loop of `chat` ended. -/
inductive LoopResult where
  /-- the `while` condition went false: the run reached this status. -/
  | exited (finalStatus : String) : LoopResult
  /-- `requires_action` arrived with an empty tool-call list:
  `cancel_run` was called and the loop was left by `break`. -/
  | cancelledStall : LoopResult
  /-- the supplied observation sequence ran out while the condition still
  held (the code itself would keep polling with no timeout). -/
  | stillPolling : LoopResult
deriving DecidableEq, Repr

/-- The polling loop of `chat`
(`while run.status in ["queued", "in_progress", "requires_action"]`):
each iteration re-reads the run (the next `RunView` in `polls`), then on
`requires_action` with a `SubmitToolOutputsAction` either cancels and
breaks on an empty call list or processes the calls and submits the
collected outputs.  An exception from the tool-call processing propagates
out of the endpoint. -/
def pollLoop (thread_id : String) :
    AppState → List String → String → List RunView →
    Except PyError (AppState × LoopResult)
  | st, _, status, [] =>
      if status = "queued" ∨ status = "in_progress" ∨
          status = "requires_action" then
        .ok (st, .stillPolling)
      else
        .ok (st, .exited status)
  | st, supply, status, rv :: rest =>
      if status = "queued" ∨ status = "in_progress" ∨
          status = "requires_action" then
        if rv.status = "requires_action" then
          match rv.toolCalls with
          | some tcs =>
              if tcs.isEmpty then
                .ok (st, .cancelledStall)
              else
                match processToolCalls thread_id st supply tcs with
                | .error e => .error e
                | .ok (st2, supply2, _) =>
                    pollLoop thread_id st2 supply2 rv.status rest
          | none => pollLoop thread_id st supply rv.status rest
        else
          pollLoop thread_id st supply rv.status rest
      else
        .ok (st, .exited status)

/-- What a chat turn produces at the HTTP boundary. -/
inductive ChatOutcome where
  /-- a normal `ChatResponse(response=text)` payload. -/
  | response (text : String) : ChatOutcome
  /-- an uncaught exception escaping the endpoint (an HTTP 500, not a
  typed failure payload). -/
  | pythonError (e : PyError) : ChatOutcome
deriving DecidableEq, Repr

/-- The tail of the `chat` endpoint after `create_run`: run the polling
loop, then — regardless of how the loop ended — fetch the thread's
messages and return the most recent assistant message as the response.
`lastAssistant` is what `get_last_text_message_by_role("assistant")`
finds; when it is `None` the code's `.text.value` access raises
`AttributeError`. -/
def chatTurn (thread_id : String) (st : AppState) (supply : List String)
    (initialStatus : String) (polls : List RunView)
    (lastAssistant : Option String) : ChatOutcome :=
  match pollLoop thread_id st supply initialStatus polls with
  | .error e => .pythonError e
  | .ok _ =>
      match lastAssistant with
      | some text => .response text
      | none => .pythonError .attributeError

/-- Rendering of a registry key for the whole-registry serialisation:
string keys by their value (every key in scope is a string). -/
def registryKeyString : Json → String
  | .str s => s
  | j => dumps j

/-- The registry's contents as one JSON object, entry dicts in insertion
order. -/
def registryContentsJson : Registry → JsonObj
  | [] => .nil
  | (k, e) :: tl => .cons (registryKeyString k) e.toJson (registryContentsJson tl)

/-- Stated from the spec's words, for comparison with
`check_process_inbox`: "read the Process Registry and return its current
contents as the tool output verbatim" — the serialisation of the whole
registry. -/
def registryContentsDump (reg : Registry) : String :=
  dumps (.obj (registryContentsJson reg))

/-! ### Registry lemmas -/

theorem Registry.get?_insert_self (reg : Registry) (k : Json) (e : Entry) :
    (reg.insert k e).get? k = some e := by
  induction reg with
  | nil => simp [Registry.insert, Registry.get?]
  | cons hd tl ih =>
      obtain ⟨k2, v2⟩ := hd
      by_cases h : k2 = k
      · subst h; simp [Registry.insert, Registry.get?]
      · simp [Registry.insert, Registry.get?, h, ih]

theorem Registry.insert_of_get?_none (reg : Registry) (k : Json) (e : Entry)
    (h : reg.get? k = none) : reg.insert k e = reg ++ [(k, e)] := by
  induction reg with
  | nil => simp [Registry.insert]
  | cons hd tl ih =>
      obtain ⟨k2, v2⟩ := hd
      simp only [Registry.get?] at h
      by_cases hk : k2 = k
      · simp [hk] at h
      · simp [Registry.insert, hk, ih (by simpa [hk] using h)]

theorem Registry.countP_eq_zero_of_get?_none (reg : Registry) (k : Json)
    (h : reg.get? k = none) :
    reg.countP (fun p => decide (p.1 = k)) = 0 := by
  induction reg with
  | nil => simp
  | cons hd tl ih =>
      obtain ⟨k2, v2⟩ := hd
      simp only [Registry.get?] at h
      by_cases hk : k2 = k
      · simp [hk] at h
      · simp [List.countP_cons, hk, ih (by simpa [hk] using h)]

theorem Registry.countP_insert_of_get?_none (reg : Registry) (k : Json)
    (e : Entry) (h : reg.get? k = none) :
    (reg.insert k e).countP (fun p => decide (p.1 = k)) = 1 := by
  rw [Registry.insert_of_get?_none reg k e h]
  simp [List.countP_append, Registry.countP_eq_zero_of_get?_none reg k h]

theorem Registry.insert_insert_self (reg : Registry) (k : Json) (e : Entry) :
    (reg.insert k e).insert k e = reg.insert k e := by
  induction reg with
  | nil => simp [Registry.insert]
  | cons hd tl ih =>
      obtain ⟨k2, v2⟩ := hd
      by_cases hk : k2 = k
      · simp [Registry.insert, hk]
      · simp [Registry.insert, hk, ih]

/-! ### Claim theorems -/

/-- C1 counterexample: an entry that already reached the terminal status
`completed` is overwritten by an incoming `running` update — the
reconciler's dict assignment has no terminal-status guard, so the entry's
status and message do NOT stay unchanged. -/
theorem reconciler_overwrites_terminal_entry :
    applyUpdate [(.str "p1", ⟨.str "completed", .obj .nil⟩)]
        ⟨.str "p1", .str "running", .obj .nil⟩ =
      [(.str "p1", ⟨.str "running", .obj .nil⟩)] ∧
    Registry.get?
        (applyUpdate [(.str "p1", ⟨.str "completed", .obj .nil⟩)]
          ⟨.str "p1", .str "running", .obj .nil⟩) (.str "p1") ≠
      some ⟨.str "completed", .obj .nil⟩ := by
  exact ⟨rfl, by decide⟩

/-- C1 (amended): the reconciler applies every update verbatim,
last-writer-wins — even when the entry's current status is terminal
(`completed` or `failed`), the incoming status and message replace it. -/
theorem reconciler_update_last_writer_wins (reg : Registry) (u : UpdateEvent)
    (e : Entry) (hmem : reg.get? u.process_id = some e)
    (hterm : e.status = .str "completed" ∨ e.status = .str "failed") :
    (applyUpdate reg u).get? u.process_id = some ⟨u.status, u.message⟩ :=
  Registry.get?_insert_self reg u.process_id ⟨u.status, u.message⟩

/-- C1 witness: the amended theorem applied at a concrete terminal entry. -/
theorem reconciler_update_last_writer_wins_witness :
    Registry.get? [(.str "p1", ⟨.str "completed", .obj .nil⟩)] (.str "p1") =
      some ⟨.str "completed", .obj .nil⟩ ∧
    (applyUpdate [(.str "p1", ⟨.str "completed", .obj .nil⟩)]
        ⟨.str "p1", .str "running", .obj .nil⟩).get? (.str "p1") =
      some ⟨.str "running", .obj .nil⟩ :=
  ⟨rfl, reconciler_update_last_writer_wins _
    ⟨.str "p1", .str "running", .obj .nil⟩ ⟨.str "completed", .obj .nil⟩
    rfl (Or.inl rfl)⟩

/-- C2 counterexample: a malformed queue message — unparsable text, or a
parsed dict missing a required field — raises out of the reconciler's
loop instead of being logged and dropped: the batch processing ends in an
exception, a well-formed message queued behind it is never consumed, and
the standing `while True` loop terminates with the coroutine. -/
theorem malformed_event_crashes_reconciler :
    processBatch [] [none] = .error .jsonDecodeError ∧
    processBatch [] [some (.obj .nil)] = .error (.keyError "status") ∧
    processBatch []
        [none,
         some (.obj (.cons "process_id" (.str "p1")
           (.cons "status" (.str "completed") .nil)))] =
      .error .jsonDecodeError ∧
    runReconciler [] [[none]] = .error .jsonDecodeError := by
  exact ⟨rfl, rfl, rfl, rfl⟩

/-- C2 (amended): a malformed message at the head of a batch — unparsable,
or missing the `status` field — makes the reconciler raise immediately:
the rest of the batch is never processed and the message is neither
completed nor dead-lettered. -/
theorem malformed_event_aborts_reconciler_batch (reg : Registry)
    (rest : List RawMsg) :
    processBatch reg (none :: rest) = .error .jsonDecodeError ∧
    processBatch reg (some (.obj .nil) :: rest) =
      .error (.keyError "status") := by
  exact ⟨rfl, rfl⟩

/-- C7: a status-update event whose process identifier is not in the
registry is accepted by creating the entry: processing the queue message
succeeds and a subsequent `get` returns the event's status and message. -/
theorem late_update_creates_entry (reg : Registry) (pid s m : Json)
    (hnew : reg.get? pid = none) :
    ∃ reg2,
      processBatch reg
          [some (.obj (.cons "process_id" pid
            (.cons "status" s (.cons "message" m .nil))))] = .ok reg2 ∧
      reg2.get? pid = some ⟨s, m⟩ := by
  refine ⟨reg.insert pid ⟨s, m⟩, ?_, Registry.get?_insert_self reg pid ⟨s, m⟩⟩
  rfl

/-- C7 witness: the spec's scenario — the event for unknown `p1` with
status `requires action` creates the entry. -/
theorem late_update_creates_entry_witness :
    (Registry.get? [] (.str "p1") = none) ∧
    ∃ reg2,
      processBatch []
          [some (.obj (.cons "process_id" (.str "p1")
            (.cons "status" (.str "requires action")
              (.cons "message"
                (.obj (.cons "step_name" (.str "Legal department approval")
                  .nil)) .nil))))] = .ok reg2 ∧
      reg2.get? (.str "p1") =
        some ⟨.str "requires action",
              .obj (.cons "step_name" (.str "Legal department approval")
                .nil)⟩ :=
  ⟨rfl, late_update_creates_entry [] (.str "p1") (.str "requires action")
    (.obj (.cons "step_name" (.str "Legal department approval") .nil)) rfl⟩

/-- C8: redelivering the same status-update event twice yields the same
registry state as delivering it once — both at the level of the applied
registry mutation and at the level of the reconciler's message loop. -/
theorem update_redelivery_idempotent (reg : Registry) (u : UpdateEvent)
    (m : RawMsg) :
    applyUpdate (applyUpdate reg u) u = applyUpdate reg u ∧
    processBatch reg [m, m] = processBatch reg [m] := by
  constructor
  · exact Registry.insert_insert_self reg u.process_id ⟨u.status, u.message⟩
  · cases m with
    | none => rfl
    | some j =>
        cases hp : parseUpdate j with
        | error e => simp [processBatch, hp]
        | ok u2 =>
            simp [processBatch, hp, applyUpdate,
              Registry.insert_insert_self]

/-- C3 counterexample: on `requires_action` with an empty tool-call list
the loop does cancel the run and break, but the turn then ends in a
NORMAL response — the code falls through to returning the most recent
assistant message, not a failure outcome. -/
theorem empty_action_set_yields_normal_response :
    pollLoop "t1" ⟨[], []⟩ [] "queued" [⟨"requires_action", some []⟩] =
      .ok (⟨[], []⟩, .cancelledStall) ∧
    chatTurn "t1" ⟨[], []⟩ [] "queued" [⟨"requires_action", some []⟩]
        (some "hi") = .response "hi" := by
  exact ⟨rfl, rfl⟩

/-- C3 (amended): on `requires_action` with an empty tool-call list the
run is cancelled and the loop exits, but the turn then takes the normal
response path: it returns the thread's most recent assistant message when
one exists, and raises `AttributeError` (an unhandled crash, not a
deliberate failure outcome) when none does. -/
theorem empty_action_set_cancels_then_normal_path (tid : String)
    (st : AppState) (supply : List String) (rest : List RunView)
    (t : String) :
    pollLoop tid st supply "queued" (⟨"requires_action", some []⟩ :: rest) =
      .ok (st, .cancelledStall) ∧
    chatTurn tid st supply "queued" (⟨"requires_action", some []⟩ :: rest)
        (some t) = .response t ∧
    chatTurn tid st supply "queued" (⟨"requires_action", some []⟩ :: rest)
        none = .pythonError .attributeError := by
  exact ⟨rfl, rfl, rfl⟩

/-- C4 counterexample: an exception raised inside the distinguished
`start_long_running_process` branch (here: its argument string fails
`json.loads`) is NOT caught — it propagates out of the tool-call loop, so
the second call's result is never collected and the cycle (and with it the
chat turn) aborts instead of continuing. -/
theorem distinguished_call_exception_aborts_cycle :
    processToolCalls "t1" ⟨[], []⟩ ["f1"]
        [⟨"c1", "start_long_running_process", none, true⟩,
         ⟨"c2", "check_process_inbox",
           some (.obj (.cons "process_id" (.str "p") .nil)), true⟩] =
      .error .jsonDecodeError := by
  exact rfl

/-- C4 (amended): only NON-distinguished tool calls run under the
`try/except`: when `agent_functions.execute` raises on such a call, the
exception is caught, that call's output is omitted, and the cycle
continues exactly as the remaining calls alone would — while the
distinguished `start_long_running_process` branch has no handler. -/
theorem nondistinguished_call_error_is_caught (tid : String) (st : AppState)
    (supply : List String) (tc : ToolCall) (rest : List ToolCall)
    (e : PyError) (hfn : tc.isFunctionCall = true)
    (hname : tc.name ≠ "start_long_running_process")
    (herr : agentFunctionsExecute st tc = .error e) :
    processToolCalls tid st supply (tc :: rest) =
      processToolCalls tid st supply rest := by
  simp [processToolCalls, hfn, hname, herr]

/-- C4 witness: an unknown tool name raises inside `execute`, is caught,
and the cycle result equals that of the remaining (empty) call list. -/
theorem nondistinguished_call_error_is_caught_witness :
    (⟨"c9", "unknown_tool", some (.obj .nil), true⟩ : ToolCall).isFunctionCall
        = true ∧
    (⟨"c9", "unknown_tool", some (.obj .nil), true⟩ : ToolCall).name ≠
      "start_long_running_process" ∧
    agentFunctionsExecute ⟨[], []⟩
        ⟨"c9", "unknown_tool", some (.obj .nil), true⟩ =
      .error .valueError ∧
    processToolCalls "t1" ⟨[], []⟩ []
        [⟨"c9", "unknown_tool", some (.obj .nil), true⟩] =
      processToolCalls "t1" ⟨[], []⟩ [] [] :=
  ⟨rfl, by decide, rfl,
    nondistinguished_call_error_is_caught "t1" ⟨[], []⟩ []
      ⟨"c9", "unknown_tool", some (.obj .nil), true⟩ [] .valueError
      rfl (by decide) rfl⟩

/-- C5 counterexample: a run that exits the polling loop with status
`failed` does not surface any failure — the turn returns the thread's
previous assistant message as a normal response payload. -/
theorem failed_run_yields_normal_response :
    pollLoop "t1" ⟨[], []⟩ [] "queued" [⟨"failed", none⟩] =
      .ok (⟨[], []⟩, .exited "failed") ∧
    chatTurn "t1" ⟨[], []⟩ [] "queued" [⟨"failed", none⟩] (some "prev") =
      .response "prev" := by
  exact ⟨rfl, rfl⟩

/-- C5 (amended): when the run exits the loop as `failed` or `cancelled`,
the code ignores the outcome and takes the normal response path: it
returns the most recent assistant message when one exists, and raises
`AttributeError` (an unhandled crash, not a typed failure) when none
does — the failure reason is never surfaced. -/
theorem failed_run_not_surfaced_as_error (tid : String) (st : AppState)
    (supply : List String) (s t : String)
    (hs : s = "failed" ∨ s = "cancelled") :
    pollLoop tid st supply "queued" [⟨s, none⟩] = .ok (st, .exited s) ∧
    chatTurn tid st supply "queued" [⟨s, none⟩] (some t) = .response t ∧
    chatTurn tid st supply "queued" [⟨s, none⟩] none =
      .pythonError .attributeError := by
  rcases hs with h | h <;> subst h <;> exact ⟨rfl, rfl, rfl⟩

/-- C5 witness: the amended theorem at status `failed`. -/
theorem failed_run_not_surfaced_as_error_witness :
    ("failed" = "failed" ∨ "failed" = "cancelled") ∧
    chatTurn "t1" ⟨[], []⟩ [] "queued" [⟨"failed", none⟩] (some "x") =
      .response "x" :=
  ⟨Or.inl rfl,
    (failed_run_not_surfaced_as_error "t1" ⟨[], []⟩ [] "failed" "x"
      (Or.inl rfl)).2.1⟩

/-- C6 counterexample: not every argument payload yields a result — when
the call's argument string is unparsable, or parses to a non-object (here
an array, so `.get` raises `AttributeError`), the distinguished branch
raises instead of returning a receipt and nothing is registered. -/
theorem start_process_bad_payload_raises :
    dispatchStartLongRunning ⟨[], []⟩ "p1" "t1"
        ⟨"c1", "start_long_running_process", none, true⟩ =
      .error .jsonDecodeError ∧
    dispatchStartLongRunning ⟨[], []⟩ "p1" "t1"
        ⟨"c1", "start_long_running_process", some (.arr .nil), true⟩ =
      .error .attributeError := by
  exact ⟨rfl, rfl⟩

/-- C6 (amended): for every invocation whose argument payload parses to a
JSON object (the schema-conformant case), the distinguished branch returns
a `ToolOutput` announcing the fresh identifier and status `running`, the
registry afterwards holds exactly one entry under that identifier with
status `running` and empty message, and the delegated work is merely
appended to the scheduled background tasks, never awaited. -/
theorem start_process_registers_and_returns_receipt (st : AppState)
    (freshId tid cid : String) (fs : JsonObj)
    (hfresh : st.processes.get? (.str freshId) = none) :
    ∃ st2,
      dispatchStartLongRunning st freshId tid
          ⟨cid, "start_long_running_process", some (.obj fs), true⟩ =
        .ok (st2, ⟨cid, "Started long running process " ++ freshId ++
                          " (Status: running)"⟩) ∧
      st2.processes.get? (.str freshId) =
        some ⟨.str "running", .obj .nil⟩ ∧
      st2.processes.countP (fun p => decide (p.1 = .str freshId)) = 1 ∧
      st2.backgroundTasks = st.backgroundTasks ++ [⟨freshId, some tid⟩] := by
  refine ⟨⟨st.processes.insert (.str freshId) ⟨.str "running", .obj .nil⟩,
           st.backgroundTasks ++ [⟨freshId, some tid⟩]⟩, ?_,
          Registry.get?_insert_self _ _ _,
          Registry.countP_insert_of_get?_none _ _ _ hfresh, rfl⟩
  cases h : fs.lookup "feature_spec" with
  | none =>
      simp [dispatchStartLongRunning, Json.dictGet, h,
        start_long_running_process, bind, Except.bind]
  | some v =>
      simp [dispatchStartLongRunning, Json.dictGet, h,
        start_long_running_process, bind, Except.bind]

/-- C6 witness: the spec's scenario payload `{"feature_spec": "X"}` on an
empty registry. -/
theorem start_process_registers_and_returns_receipt_witness :
    (Registry.get? [] (.str "p1") = none) ∧
    ∃ st2,
      dispatchStartLongRunning ⟨[], []⟩ "p1" "t1"
          ⟨"c1", "start_long_running_process",
            some (.obj (.cons "feature_spec" (.str "X") .nil)), true⟩ =
        .ok (st2, ⟨"c1", "Started long running process " ++ "p1" ++
                          " (Status: running)"⟩) ∧
      st2.processes.get? (.str "p1") = some ⟨.str "running", .obj .nil⟩ ∧
      st2.processes.countP (fun p => decide (p.1 = .str "p1")) = 1 ∧
      st2.backgroundTasks = ([] : List BgTask) ++ [⟨"p1", some "t1"⟩] :=
  ⟨rfl, start_process_registers_and_returns_receipt ⟨[], []⟩ "p1" "t1" "c1"
    (.cons "feature_spec" (.str "X") .nil) rfl⟩

/-- C9 counterexample: with two registered processes, the inbox tool
invoked for `p1` returns only `p1`'s entry serialised — not the
serialisation of the registry's whole current contents. -/
theorem inbox_is_not_whole_registry :
    check_process_inbox
        [(.str "p1", ⟨.str "running", .obj .nil⟩),
         (.str "p2", ⟨.str "completed", .obj .nil⟩)] (.str "p1") =
      "\x7b\"status\": \"running\", \"message\": \x7b\x7d\x7d" ∧
    check_process_inbox
        [(.str "p1", ⟨.str "running", .obj .nil⟩),
         (.str "p2", ⟨.str "completed", .obj .nil⟩)] (.str "p1") ≠
      registryContentsDump
        [(.str "p1", ⟨.str "running", .obj .nil⟩),
         (.str "p2", ⟨.str "completed", .obj .nil⟩)] := by
  exact ⟨rfl, by decide⟩

/-- C9 (amended): the inbox tool returns the serialisation of the single
registry entry stored under the requested process identifier — the
`{"status": ..., "message": ...}` dict it holds at call time — not the
whole registry. -/
theorem inbox_returns_entry_serialisation (reg : Registry) (pid : Json)
    (e : Entry) (h : reg.get? pid = some e) :
    check_process_inbox reg pid = dumps e.toJson := by
  simp [check_process_inbox, h]

/-- C9 witness: the amended theorem at a one-entry registry. -/
theorem inbox_returns_entry_serialisation_witness :
    Registry.get? [(.str "p1", ⟨.str "running", .obj .nil⟩)] (.str "p1") =
      some ⟨.str "running", .obj .nil⟩ ∧
    check_process_inbox [(.str "p1", ⟨.str "running", .obj .nil⟩)]
        (.str "p1") =
      dumps (Entry.toJson ⟨.str "running", .obj .nil⟩) :=
  ⟨rfl, inbox_returns_entry_serialisation
    [(.str "p1", ⟨.str "running", .obj .nil⟩)] (.str "p1")
    ⟨.str "running", .obj .nil⟩ rfl⟩

/-- C10: for an identifier absent from the registry the inbox tool
returns the four-character string `null` — `json.dumps` of Python `None`
— rather than raising or signalling absence some other way. -/
theorem inbox_missing_process_returns_null (reg : Registry) (pid : Json)
    (h : reg.get? pid = none) :
    check_process_inbox reg pid = "null" := by
  simp [check_process_inbox, h, dumps]

/-- C10 witness: the empty registry queried for `p1`. -/
theorem inbox_missing_process_returns_null_witness :
    (Registry.get? [] (.str "p1") = none) ∧
    check_process_inbox [] (.str "p1") = "null" :=
  ⟨rfl, inbox_missing_process_returns_null [] (.str "p1") rfl⟩
